import Mathlib

/-!
Verification of the OpenSea API client (`src/lib/types.d.ts`, which bundles the
type declarations and the `OpenSeaAPI` class implementation).

The embedding models:
  * a JSON value type together with the pieces of JavaScript semantics the
    client relies on (`JSON.stringify`, truthiness, `Array.prototype.join`,
    object spread / property lookup);
  * the `OpenSeaAPI` configuration and constructor;
  * the request-building side (`post`, `put`, `_fetch`, and the query objects
    passed to `get` by the paginated list operations);
  * the response-handling side (`_handleApiResponse` and the per-operation
    decoding in `getOrder` / `getOrders` / `getAsset` / `getBundle`).

Machine numbers are modelled as `Int` (the client performs no arithmetic that
can overflow or produce non-integers).  Thrown JavaScript exceptions are
modelled explicitly: `HandleOutcome` / `FetchResult` distinguish the `Error`
raised by `_handleApiResponse` from a `TypeError`/`SyntaxError` escaping from
the JavaScript runtime itself.
-/

set_option autoImplicit false

/-- JSON values, as produced by `JSON.parse` / `response.json()`.
Object fields are an association list; for lookup, a later binding shadows an
earlier one (mirroring `JSON.parse`, which keeps the last duplicate key). -/
inductive Json where
  | null : Json
  | bool (b : Bool) : Json
  | num (n : Int) : Json
  | str (s : String) : Json
  | arr (elems : List Json) : Json
  | obj (fields : List (String × Json)) : Json

/-- JavaScript truthiness of a JSON value (`undefined` is represented
separately, by `Option.none`, at the call sites that need it). -/
def truthy : Json → Bool
  | .null => false
  | .bool b => b
  | .num n => !(n == 0)
  | .str s => !(s == "")
  | .arr _ => true
  | .obj _ => true

/-- String escaping performed by `JSON.stringify` (quotes and backslashes;
the client never deals in control characters). -/
def escJsonChar (c : Char) : String :=
  if c == '\"' then "\\\"" else if c == '\\' then "\\\\" else String.singleton c

def escJsonString (s : String) : String :=
  String.join (s.toList.map escJsonChar)

mutual

/-- `JSON.stringify` on JSON values. -/
def stringifyJson : Json → String
  | .null => "null"
  | .bool b => cond b "true" "false"
  | .num n => toString n
  | .str s => "\"" ++ escJsonString s ++ "\""
  | .arr xs => "[" ++ stringifyElems xs ++ "]"
  | .obj fs => "\x7b" ++ stringifyFields fs ++ "\x7d"

def stringifyElems : List Json → String
  | [] => ""
  | [x] => stringifyJson x
  | x :: y :: rest => stringifyJson x ++ "," ++ stringifyElems (y :: rest)

def stringifyFields : List (String × Json) → String
  | [] => ""
  | [(k, v)] => "\"" ++ escJsonString k ++ "\":" ++ stringifyJson v
  | (k, v) :: y :: rest =>
      "\"" ++ escJsonString k ++ "\":" ++ stringifyJson v ++ "," ++ stringifyFields (y :: rest)

end

mutual

/-- How `Array.prototype.join` renders a single element: `String(x)`, except
that `null`/`undefined` elements render as the empty string. -/
def joinStr : Json → String
  | .null => ""
  | .bool b => cond b "true" "false"
  | .num n => toString n
  | .str s => s
  | .arr xs => joinElems xs ","
  | .obj _ => "[object Object]"

/-- `Array.prototype.join` with an explicit separator. -/
def joinElems : List Json → String → String
  | [], _ => ""
  | [x], _ => joinStr x
  | x :: y :: rest, sep => joinStr x ++ sep ++ joinElems (y :: rest) sep

end

/-- Property lookup on a JavaScript object represented as an association
list: the LAST binding of a key wins (object spread appends/overrides). -/
def jsGet {α : Type} : List (String × α) → String → Option α
  | [], _ => none
  | (k, v) :: rest, key =>
      match jsGet rest key with
      | some w => some w
      | none => if k == key then some v else none

theorem jsGet_nil {α : Type} (key : String) : jsGet ([] : List (String × α)) key = none := rfl

theorem jsGet_append_some {α : Type} {ys : List (String × α)} {key : String} {v : α}
    (xs : List (String × α)) (h : jsGet ys key = some v) :
    jsGet (xs ++ ys) key = some v := by
  induction xs with
  | nil => simpa using h
  | cons p xs ih =>
    cases p with
    | mk k w => simp only [List.cons_append, jsGet, List.append_eq, ih]

theorem jsGet_append_none {α : Type} {ys : List (String × α)} {key : String}
    (xs : List (String × α)) (h : jsGet ys key = none) :
    jsGet (xs ++ ys) key = jsGet xs key := by
  induction xs with
  | nil => simpa using h
  | cons p xs ih =>
    cases p with
    | mk k w => simp only [List.cons_append, jsGet, List.append_eq, ih]

theorem jsGet_eq_none_of_forall {α : Type} {key : String}
    (xs : List (String × α)) (h : ∀ p ∈ xs, p.1 ≠ key) :
    jsGet xs key = none := by
  induction xs with
  | nil => rfl
  | cons p xs ih =>
    cases p with
    | mk k w =>
      have hk : k ≠ key := h (k, w) (List.mem_cons_self _ _)
      have hrest : jsGet xs key = none := ih (fun q hq => h q (List.mem_cons_of_mem _ hq))
      simp [jsGet, hrest, hk]

example : jsGet [("a", (1 : Int)), ("b", 2), ("a", 3)] "a" = some 3 := rfl
example : truthy (.arr []) = true := rfl
example : stringifyJson (.obj [("errors", .str "x")]) = "\x7b\"errors\":\"x\"\x7d" := rfl
example : joinElems [.str "bad salt", .str "bad side"] ", " = "bad salt, bad side" := rfl

/-! ## Data model (`src/lib/types.d.ts`, declarations section) -/

/-- Wyvern order side: buy or sell (`OrderSide`). -/
inductive OrderSide where
  | Buy : OrderSide
  | Sell : OrderSide

/-- Wyvern fee method (`FeeMethod`). -/
inductive FeeMethod where
  | ProtocolFee : FeeMethod
  | SplitFee : FeeMethod

/-- Wyvern sale kind (`SaleKind`). -/
inductive SaleKind where
  | FixedPrice : SaleKind
  | DutchAuction : SaleKind

/-- `HowToCall` is imported from the external `wyvern-js` library; its two
standard variants suffice for this development. -/
inductive HowToCall where
  | Call : HowToCall
  | DelegateCall : HowToCall

/-- `WyvernSchemaName` (only ERC721 in this version). -/
inductive WyvernSchemaName where
  | ERC721 : WyvernSchemaName

/-- `WyvernAsset`. -/
structure WyvernAsset where
  id : String
  address : String

/-- A TypeScript `number | string` union, used by several `OrderJSON` fields. -/
inductive NumOrStr where
  | num (n : Int) : NumOrStr
  | str (s : String) : NumOrStr

/-- The `metadata` block of `OrderJSON`. -/
structure OrderMetadataJSON where
  asset : WyvernAsset
  schema : WyvernSchemaName

/-- `OrderJSON`: the wire representation of an order, including the optional
orderbook query attributes. -/
structure OrderJSON where
  exchange : String
  maker : String
  taker : String
  makerRelayerFee : String
  takerRelayerFee : String
  makerProtocolFee : String
  takerProtocolFee : String
  feeRecipient : String
  feeMethod : FeeMethod
  side : OrderSide
  saleKind : SaleKind
  target : String
  howToCall : HowToCall
  calldata : String
  replacementPattern : String
  staticTarget : String
  staticExtradata : String
  paymentToken : String
  basePrice : String
  extra : String
  listingTime : NumOrStr
  expirationTime : NumOrStr
  salt : String
  metadata : OrderMetadataJSON
  hash : String
  v : Option Int
  r : Option String
  s : Option String
  owner : Option String
  sale_kind : Option SaleKind
  asset_contract_address : Option String
  payment_token_address : Option String
  bundled : Option Bool
  token_id : Option NumOrStr
  token_ids : Option (List NumOrStr)
  listed_after : Option NumOrStr
  listed_before : Option NumOrStr
  limit : Option Int
  offset : Option Int

/-- Modelled from the spec: the normalized `Order` produced by
`orderFromJSON` (in `src/lib/utils`, which is not under `src/`).  Per §4.1 the
normalizer is a pure, deterministic mapping from the raw record; the claims
treat normalized orders opaquely, so it is modelled as a tagged wrapper. -/
structure Order where
  fromJSONSource : OrderJSON

/-- Modelled from the spec: `orderFromJSON` (src/lib/utils), the pure
normalization of a raw order JSON record into a typed `Order`. -/
def orderFromJSON (j : OrderJSON) : Order := ⟨j⟩

/-- Modelled from the spec: the normalized asset produced by `assetFromJSON`
(src/lib/utils, not under `src/`); treated opaquely by the claims. -/
structure OpenSeaAsset where
  rawJSONSource : Json

/-- Modelled from the spec: `assetFromJSON` (src/lib/utils), the pure
normalization of raw asset JSON. -/
def assetFromJSON (j : Json) : OpenSeaAsset := ⟨j⟩

/-- Modelled from the spec: the normalized bundle produced by
`assetBundleFromJSON` (src/lib/utils, not under `src/`). -/
structure OpenSeaAssetBundle where
  rawJSONSource : Json

/-- Modelled from the spec: `assetBundleFromJSON` (src/lib/utils). -/
def assetBundleFromJSON (j : Json) : OpenSeaAssetBundle := ⟨j⟩

/-! ## Module constants (`src/lib/api.ts` part of the source file) -/

def ORDERBOOK_VERSION : Int := 1
def API_VERSION : Int := 1
def API_BASE_MAINNET : String := "https://api.opensea.io"
def API_BASE_RINKEBY : String := "https://rinkeby-api.opensea.io"
def SITE_HOST_MAINNET : String := "https://opensea.io"
def SITE_HOST_RINKEBY : String := "https://rinkeby.opensea.io"

/-- `ORDERBOOK_PATH` (template literal over `ORDERBOOK_VERSION`). -/
def ORDERBOOK_PATH : String := "/wyvern/v" ++ toString ORDERBOOK_VERSION

/-- `API_PATH` — note the source interpolates `ORDERBOOK_VERSION` here too. -/
def API_PATH : String := "/api/v" ++ toString ORDERBOOK_VERSION

/-- The `Network` enum (from `wyvern-js`), restricted to the two networks the
constructor distinguishes. -/
inductive Network where
  | Main : Network
  | Rinkeby : Network

/-- `OpenSeaAPIConfig`. -/
structure OpenSeaAPIConfig where
  networkName : Option Network := none
  apiKey : Option String := none
  apiBaseUrl : Option String := none
  gasPrice : Option Int := none

/-- The `OpenSeaAPI` client state: the configuration fields set by the
constructor (the logger is a no-op pass-through and carries no state). -/
structure OpenSeaAPI where
  hostUrl : String
  apiBaseUrl : String
  pageSize : Int
  apiKey : Option String

/-- JavaScript `a || d` on an optional string: the default is used when the
value is absent or falsy (the empty string). -/
def jsOrDefault (s : Option String) (d : String) : String :=
  match s with
  | some v => if v == "" then d else v
  | none => d

/-- The `OpenSeaAPI` constructor: stores the API key, selects the base URL
and host by network (Rinkeby vs Main/default, with a caller-supplied
`apiBaseUrl` taking precedence), and initializes `pageSize = 20`. -/
def OpenSeaAPI.create (config : OpenSeaAPIConfig) : OpenSeaAPI :=
  match config.networkName with
  | some Network.Rinkeby =>
      ⟨SITE_HOST_RINKEBY, jsOrDefault config.apiBaseUrl API_BASE_RINKEBY, 20, config.apiKey⟩
  | _ =>
      ⟨SITE_HOST_MAINNET, jsOrDefault config.apiBaseUrl API_BASE_MAINNET, 20, config.apiKey⟩

/-! ## Transport shim: request building (`post`, `put`, `_fetch`) -/

/-- The subset of the Fetch `RequestInit` options the client manipulates.
`none` models an absent property. -/
structure RequestInit where
  method : Option String := none
  body : Option String := none
  headers : Option (List (String × String)) := none
deriving DecidableEq

/-- Field-level semantics of JavaScript object spread `\x7b...a, ...b\x7d`:
a property of `b`, when present, overrides the one from `a`. -/
def overrideOpt {α : Type} : Option α → Option α → Option α
  | a, none => a
  | _, some b => some b

/-- Object spread `\x7b...a, ...b\x7d` on `RequestInit` literals (spread
replaces a property wholesale; in particular a `headers` object from `b`
replaces the whole `headers` object of `a`). -/
def spreadInit (a b : RequestInit) : RequestInit :=
  ⟨overrideOpt a.method b.method, overrideOpt a.body b.body, overrideOpt a.headers b.headers⟩

/-- Object spread `\x7b...a, ...b\x7d` on string-valued maps (used for header
objects): keys of `b` override those of `a`.  Represented so that `jsGet`
agrees with JavaScript property lookup on the result. -/
def objMerge (a b : List (String × String)) : List (String × String) :=
  a.filter (fun p => !(b.any (fun q => q.1 == p.1))) ++ b

/-- The final `fetch(finalUrl, finalOpts)` invocation issued by `_fetch`. -/
structure FetchCall where
  url : String
  opts : RequestInit
deriving DecidableEq

/-- `OpenSeaAPI._fetch`: prepends the configured base URL and merges the
`X-API-KEY` header under the caller's headers.  The source guards the header
with JavaScript truthiness (`apiKey ? \x7b'X-API-KEY': apiKey\x7d : \x7b\x7d`),
so an absent key AND a configured empty-string key both attach nothing. -/
def OpenSeaAPI.fetchRaw (api : OpenSeaAPI) (apiPath : String) (opts : RequestInit) : FetchCall :=
  let finalUrl := api.apiBaseUrl ++ apiPath
  let keyHeaders : List (String × String) :=
    match api.apiKey with
    | some k => if k == "" then [] else [("X-API-KEY", k)]
    | none => []
  let finalOpts : RequestInit :=
    ⟨opts.method, opts.body, some (objMerge keyHeaders (opts.headers.getD []))⟩
  ⟨finalUrl, finalOpts⟩

/-- `OpenSeaAPI.post`: method `POST`, JSON-serialized body (absent when the
`body` argument is absent/falsy), JSON accept/content-type headers, all
overridable by the caller's `opts` (spread last), then `_fetch`. -/
def OpenSeaAPI.post (api : OpenSeaAPI) (apiPath : String) (body : Option Json)
    (opts : RequestInit) : FetchCall :=
  let fetchOpts := spreadInit
    ⟨some "POST",
     (match body with
      | some b => if truthy b then some (stringifyJson b) else none
      | none => none),
     some [("Accept", "application/json"), ("Content-Type", "application/json")]⟩
    opts
  api.fetchRaw apiPath fetchOpts

/-- `OpenSeaAPI.put`: delegates to `post` with a `method := PUT` default that
the caller's `opts` are spread over. -/
def OpenSeaAPI.put (api : OpenSeaAPI) (apiPath : String) (body : Json)
    (opts : RequestInit) : FetchCall :=
  api.post apiPath (some body) (spreadInit ⟨some "PUT", none, none⟩ opts)

/-! ## Orderbook client: query construction for the paginated reads.

`get(apiPath, query)` stringifies `query` with the external `query-string`
library; the claims concern the query object handed to `get`, so each list
operation is modelled down to that object (path plus key/value map). -/

/-- The `(apiPath, query)` pair passed to `OpenSeaAPI.get` by a list
operation, before the external query-string serialization. -/
structure GetCall where
  path : String
  query : List (String × Json)

/-- JavaScript object-literal update `\x7b...m, k: v\x7d` restricted to the
key `k`: the binding for `k` now maps to `v` (observationally, via `jsGet`). -/
def objSet (m : List (String × Json)) (k : String) (v : Json) : List (String × Json) :=
  m.filter (fun p => !(p.1 == k)) ++ [(k, v)]

/-- The query object `\x7b...query, limit, offset\x7d` shared by all four
paginated list operations. -/
def paginatedQuery (api : OpenSeaAPI) (query : List (String × Json)) (page : Int) :
    List (String × Json) :=
  objSet (objSet query "limit" (.num api.pageSize)) "offset"
    (.num ((page - 1) * api.pageSize))

/-- The `get` call issued by `getOrders` (path and query object). -/
def OpenSeaAPI.getOrdersCall (api : OpenSeaAPI) (query : List (String × Json))
    (page : Int) : GetCall :=
  ⟨ORDERBOOK_PATH ++ "/orders", paginatedQuery api query page⟩

/-- The `get` call issued by `getAssets`. -/
def OpenSeaAPI.getAssetsCall (api : OpenSeaAPI) (query : List (String × Json))
    (page : Int) : GetCall :=
  ⟨API_PATH ++ "/assets/", paginatedQuery api query page⟩

/-- The `get` call issued by `getTokens`. -/
def OpenSeaAPI.getTokensCall (api : OpenSeaAPI) (query : List (String × Json))
    (page : Int) : GetCall :=
  ⟨API_PATH ++ "/tokens/", paginatedQuery api query page⟩

/-- The `get` call issued by `getBundles`. -/
def OpenSeaAPI.getBundlesCall (api : OpenSeaAPI) (query : List (String × Json))
    (page : Int) : GetCall :=
  ⟨API_PATH ++ "/bundles/", paginatedQuery api query page⟩

/-! ## Transport shim: response handling (`_handleApiResponse`) -/

/-- An HTTP response as seen by the client.
`textBody = none` models `response.text()` rejecting; when it is `some t`,
`jsonOf` is the outcome of `JSON.parse t` (`none` when parsing throws) —
`response.json()` on the success path has the same outcome. -/
structure ApiResponse where
  status : Nat
  textBody : Option String
  jsonOf : Option Json

/-- Fetch's `Response.ok`: status in the inclusive range 200–299. -/
def ApiResponse.ok (r : ApiResponse) : Bool :=
  decide (200 ≤ r.status) && decide (r.status < 300)

/-- The value of the local variable `result` after the
`try \x7b result = await response.text(); result = JSON.parse(result) \x7d catch \x7b\x7d`
block: `undefined` when `text()` rejected, the raw text when `JSON.parse`
threw, and the parsed JSON otherwise ("Result will be undefined or text"). -/
inductive BodyResult where
  | undef : BodyResult
  | txt (s : String) : BodyResult
  | json (j : Json) : BodyResult

def bodyResult (r : ApiResponse) : BodyResult :=
  match r.textBody with
  | none => .undef
  | some t =>
    match r.jsonOf with
    | none => .txt t
    | some j => .json j

/-- `JSON.stringify(result)` as interpolated into the error-message template
literals (`JSON.stringify(undefined)` interpolates as `undefined`). -/
def stringifyResult : BodyResult → String
  | .undef => "undefined"
  | .txt s => "\"" ++ escJsonString s ++ "\""
  | .json j => stringifyJson j

/-- JavaScript truthiness of `result`. -/
def resultTruthy : BodyResult → Bool
  | .undef => false
  | .txt s => !(s == "")
  | .json j => truthy j

/-- Property access `result.errors`: defined only when `result` is an object
with an `errors` property; on any other value it is `undefined`. -/
def resultErrors : BodyResult → Option Json
  | .json (.obj fs) => jsGet fs "errors"
  | _ => none

/-- Outcome of `_handleApiResponse`: the response returned unchanged, the
thrown `Error('API Error: ...')`, or a TypeError escaping from the
JavaScript runtime (`result.errors.join` on a non-array). -/
inductive HandleOutcome where
  | success (r : ApiResponse) : HandleOutcome
  | apiError (msg : String) : HandleOutcome
  | jsTypeError : HandleOutcome

/-- `OpenSeaAPI._handleApiResponse`: success responses pass through; failed
responses get their body parsed best-effort and a status-categorized
`Error` is thrown. -/
def handleApiResponse (r : ApiResponse) : HandleOutcome :=
  if r.ok then .success r
  else
    let result := bodyResult r
    match r.status with
    | 400 =>
        if resultTruthy result && (resultErrors result).elim false truthy then
          match resultErrors result with
          | some (.arr es) => .apiError ("API Error: " ++ joinElems es ", ")
          | _ => .jsTypeError
        else
          .apiError ("API Error: Invalid request: " ++ stringifyResult result)
    | 401 =>
        .apiError ("API Error: Unauthorized. Full message was '" ++ stringifyResult result ++ "'")
    | 403 =>
        .apiError ("API Error: Unauthorized. Full message was '" ++ stringifyResult result ++ "'")
    | 404 =>
        .apiError ("API Error: Not found. Full message was '" ++ stringifyResult result ++ "'")
    | 500 =>
        .apiError ("API Error: Internal server error. OpenSea has been alerted, but if the problem persists please contact us via Discord: https://discord.gg/ga8EJbv - full message was " ++ stringifyResult result)
    | s =>
        .apiError ("API Error: status code " ++ toString s ++ ". Message: " ++ stringifyResult result)

/-- Outcome of a read operation: a value, the thrown API error, or a
JavaScript runtime exception (TypeError / `json()` rejection). -/
inductive FetchResult (α : Type) where
  | value (a : α) : FetchResult α
  | apiError (msg : String) : FetchResult α
  | jsError : FetchResult α

/-- `await response.json()` after the transport shim: propagates the
categorized error of `_handleApiResponse`, rejects when the success body is
not parseable JSON, and yields the parsed body otherwise. -/
def responseJson (r : ApiResponse) : FetchResult Json :=
  match handleApiResponse r with
  | .success resp =>
    match resp.jsonOf with
    | some j => .value j
    | none => .jsError
  | .apiError m => .apiError m
  | .jsTypeError => .jsError

/-- `OpenSeaAPI.getAsset` applied to the transport outcome `r`:
`json ? assetFromJSON(json) : null`. -/
def getAssetResult (r : ApiResponse) : FetchResult (Option OpenSeaAsset) :=
  match responseJson r with
  | .value j => .value (if truthy j then some (assetFromJSON j) else none)
  | .apiError m => .apiError m
  | .jsError => .jsError

/-- `OpenSeaAPI.getBundle` applied to the transport outcome `r`:
`json ? assetBundleFromJSON(json) : null`. -/
def getBundleResult (r : ApiResponse) : FetchResult (Option OpenSeaAssetBundle) :=
  match responseJson r with
  | .value j => .value (if truthy j then some (assetBundleFromJSON j) else none)
  | .apiError m => .apiError m
  | .jsError => .jsError

/-! ## Orderbook client: dual-schema order decoding.

The successful order-endpoint payload, at the two shapes the client's casts
commit to: a bare array of order records (legacy), or the
`OrderbookResponse` object `\x7borders, count\x7d` (versioned).  TypeScript
performs no runtime validation, so a branch applied to the other shape hits
the JavaScript runtime (`.map`/indexing on a value of the wrong shape). -/
inductive OrdersPayload where
  | rawList (orders : List OrderJSON) : OrdersPayload
  | book (orders : List OrderJSON) (count : Int) : OrdersPayload

/-- `OpenSeaAPI.getOrders`, from the decoded payload on: branches on the
orderbook version flag (the module constant `ORDERBOOK_VERSION` in the
source), never on the payload.  Legacy (flag 0): `json.map(orderFromJSON)`
with `count = json.length`; versioned: `json.orders.map(orderFromJSON)` with
`count = json.count` taken verbatim.  A payload of the other schema makes
`.map` (legacy branch, `json.map` on a non-array) or `.orders.map`
(versioned branch, `undefined.map`) throw a TypeError. -/
def getOrdersResult (version : Int) (payload : OrdersPayload) :
    FetchResult (List Order × Int) :=
  if version == 0 then
    match payload with
    | .rawList js => .value (js.map orderFromJSON, Int.ofNat js.length)
    | .book _ _ => .jsError
  else
    match payload with
    | .book js c => .value (js.map orderFromJSON, c)
    | .rawList _ => .jsError

/-- `OpenSeaAPI.getOrder`, from the decoded payload on: same version branch;
`json[0]` (legacy) or `json.orders[0]` (versioned), then
`orderJSON ? orderFromJSON(orderJSON) : null`.  In the legacy branch `json[0]`
on an `\x7borders, count\x7d` object is merely `undefined` (so `null` is
returned), while in the versioned branch `json.orders[0]` on a bare array is
a TypeError (`undefined[0]`). -/
def getOrderResult (version : Int) (payload : OrdersPayload) :
    FetchResult (Option Order) :=
  if version == 0 then
    match payload with
    | .rawList js => .value (js.head?.map orderFromJSON)
    | .book _ _ => .value none
  else
    match payload with
    | .book js _ => .value (js.head?.map orderFromJSON)
    | .rawList _ => .jsError

/-! ## Supporting lemmas -/

theorem jsGet_objSet_self (m : List (String × Json)) (k : String) (v : Json) :
    jsGet (objSet m k v) k = some v := by
  unfold objSet
  apply jsGet_append_some
  simp [jsGet]

theorem jsGet_filter_ne {α : Type} (m : List (String × α)) (k k' : String) (h : ¬ k' = k) :
    jsGet (m.filter (fun p => !(p.1 == k))) k' = jsGet m k' := by
  induction m with
  | nil => rfl
  | cons p m ih =>
    obtain ⟨a, b⟩ := p
    by_cases hak : a = k
    · subst hak
      have hak' : ¬ (a == k') = true := by
        simp only [beq_iff_eq]
        intro hh
        exact h hh.symm
      cases hjm : jsGet m k' with
      | some w => simp [List.filter_cons, jsGet, hjm, ih]
      | none => simp [List.filter_cons, jsGet, hjm, ih, hak']
    · simp [List.filter_cons, hak, jsGet, ih]

theorem jsGet_paginatedQuery_limit (api : OpenSeaAPI) (query : List (String × Json))
    (page : Int) :
    jsGet (paginatedQuery api query page) "limit" = some (.num api.pageSize) := by
  unfold paginatedQuery
  unfold objSet
  rw [jsGet_append_none _ (by simp [jsGet])]
  rw [jsGet_filter_ne _ _ _ (by decide)]
  exact jsGet_objSet_self query "limit" (.num api.pageSize)

theorem jsGet_paginatedQuery_offset (api : OpenSeaAPI) (query : List (String × Json))
    (page : Int) :
    jsGet (paginatedQuery api query page) "offset"
      = some (.num ((page - 1) * api.pageSize)) :=
  jsGet_objSet_self _ "offset" _

/-- Concrete order record used to instantiate the theorems below. -/
def sampleOrderJSON : OrderJSON :=
  ⟨"0xexchange", "0xmaker", "0xtaker", "0", "0", "0", "0", "0xfeerecipient",
   .SplitFee, .Sell, .FixedPrice, "0xtarget", .Call, "0x", "0x", "0x", "0x",
   "0xpaymenttoken", "1000000000000000000", "0", .num 1500000000, .num 1500003600,
   "424242", ⟨⟨"1", "0xassetaddr"⟩, .ERC721⟩, "0xhash",
   some 27, some "0xr", some "0xs",
   none, none, none, none, none, none, none, none, none, none, none⟩

/-! ## Claims -/

/-- C1: `getOrders` selects the response schema by the orderbook version
flag alone, never by inspecting the payload: with flag 0 a bare-array
response `[orderJson]` yields `(orders, count = array length)`; with a
non-zero flag an `\x7borders, count\x7d` response yields the page's
normalized orders and the payload's `count` verbatim.  A payload of the
respectively other shape is not adapted to — it hits a runtime TypeError. -/
theorem getOrders_selects_schema_by_version_flag (js : List OrderJSON) (c : Int)
    (v : Int) (hv : v ≠ 0) :
    getOrdersResult 0 (.rawList js) = .value (js.map orderFromJSON, Int.ofNat js.length)
    ∧ getOrdersResult v (.book js c) = .value (js.map orderFromJSON, c)
    ∧ getOrdersResult 0 (.book js c) = .jsError
    ∧ getOrdersResult v (.rawList js) = .jsError := by
  refine ⟨rfl, ?_, rfl, ?_⟩ <;> simp [getOrdersResult, hv]

/-- Witness for C1 at a one-element page: legacy count is 1, versioned count
is the payload's 57. -/
theorem getOrders_selects_schema_by_version_flag_witness :
    getOrdersResult 0 (.rawList [sampleOrderJSON])
      = .value ([orderFromJSON sampleOrderJSON], 1)
    ∧ getOrdersResult 1 (.book [sampleOrderJSON] 57)
      = .value ([orderFromJSON sampleOrderJSON], 57) := by
  have h := getOrders_selects_schema_by_version_flag [sampleOrderJSON] 57 1 (by decide)
  exact ⟨h.1, h.2.1⟩

/-- C2: every paginated list operation (`getOrders`, `getAssets`,
`getTokens`, `getBundles`) issues its request with query parameters
`limit = pageSize` and `offset = (page - 1) * pageSize`. -/
theorem paginated_requests_carry_limit_and_offset (api : OpenSeaAPI)
    (query : List (String × Json)) (page : Int) (_hp : 1 ≤ page) :
    (jsGet (api.getOrdersCall query page).query "limit" = some (.num api.pageSize)
      ∧ jsGet (api.getOrdersCall query page).query "offset"
          = some (.num ((page - 1) * api.pageSize)))
    ∧ (jsGet (api.getAssetsCall query page).query "limit" = some (.num api.pageSize)
      ∧ jsGet (api.getAssetsCall query page).query "offset"
          = some (.num ((page - 1) * api.pageSize)))
    ∧ (jsGet (api.getTokensCall query page).query "limit" = some (.num api.pageSize)
      ∧ jsGet (api.getTokensCall query page).query "offset"
          = some (.num ((page - 1) * api.pageSize)))
    ∧ (jsGet (api.getBundlesCall query page).query "limit" = some (.num api.pageSize)
      ∧ jsGet (api.getBundlesCall query page).query "offset"
          = some (.num ((page - 1) * api.pageSize))) :=
  ⟨⟨jsGet_paginatedQuery_limit api query page, jsGet_paginatedQuery_offset api query page⟩,
   ⟨jsGet_paginatedQuery_limit api query page, jsGet_paginatedQuery_offset api query page⟩,
   ⟨jsGet_paginatedQuery_limit api query page, jsGet_paginatedQuery_offset api query page⟩,
   ⟨jsGet_paginatedQuery_limit api query page, jsGet_paginatedQuery_offset api query page⟩⟩

/-- Witness for C2: a freshly constructed client (page size 20) requests
`offset = 0` on page 1 and `offset = 40`, `limit = 20` on page 3. -/
theorem paginated_requests_carry_limit_and_offset_witness :
    jsGet ((OpenSeaAPI.create ⟨none, none, none, none⟩).getOrdersCall [] 1).query "offset"
      = some (.num 0)
    ∧ jsGet ((OpenSeaAPI.create ⟨none, none, none, none⟩).getOrdersCall [] 3).query "offset"
      = some (.num 40)
    ∧ jsGet ((OpenSeaAPI.create ⟨none, none, none, none⟩).getOrdersCall [] 3).query "limit"
      = some (.num 20) := by
  have h1 := paginated_requests_carry_limit_and_offset
    (OpenSeaAPI.create ⟨none, none, none, none⟩) [] 1 (by decide)
  have h3 := paginated_requests_carry_limit_and_offset
    (OpenSeaAPI.create ⟨none, none, none, none⟩) [] 3 (by decide)
  exact ⟨h1.1.2, h3.1.2, h3.1.1⟩

/-- C3: `getOrder` maps a successful zero-match response to `null` (not an
error, not an empty array), in both the legacy and the versioned schema. -/
theorem getOrder_returns_null_on_zero_matches (v : Int) (c : Int) (hv : v ≠ 0) :
    getOrderResult 0 (.rawList []) = .value none
    ∧ getOrderResult v (.book [] c) = .value none := by
  refine ⟨rfl, ?_⟩
  simp [getOrderResult, hv]

/-- Witness for C3 on the current (versioned) schema. -/
theorem getOrder_returns_null_on_zero_matches_witness :
    getOrderResult 1 (.book [] 0) = .value none :=
  (getOrder_returns_null_on_zero_matches 1 0 (by decide)).2

/-- C4 counterexample: a 404 response whose body text `"oops"` is not
parseable JSON.  The parse failure is swallowed, but the `result` used to
build the message is the raw text — not `undefined` as claimed — and the
raised message embeds the stringified text. -/
theorem parse_failure_body_not_undefined_cex :
    bodyResult ⟨404, some "oops", none⟩ = BodyResult.txt "oops"
    ∧ BodyResult.txt "oops" ≠ BodyResult.undef
    ∧ handleApiResponse ⟨404, some "oops", none⟩
        = .apiError "API Error: Not found. Full message was '\"oops\"'" := by
  refine ⟨rfl, ?_, rfl⟩
  intro h
  cases h

/-- C4 amended: for every failed response whose body is not parseable as
JSON, the parse failure is swallowed and a categorized error is still
raised; the `result` body used for the message is the raw response text when
`text()` succeeded, and `undefined` only when reading the text itself
failed. -/
theorem parse_failure_swallowed_amended (r : ApiResponse) (hok : r.ok = false)
    (hj : r.jsonOf = none) :
    (∃ m, handleApiResponse r = .apiError m)
    ∧ bodyResult r = (match r.textBody with
        | some t => BodyResult.txt t
        | none => BodyResult.undef) := by
  have hbr : bodyResult r = (match r.textBody with
      | some t => BodyResult.txt t
      | none => BodyResult.undef) := by
    unfold bodyResult
    cases r.textBody with
    | none => rfl
    | some t => rw [hj]
  refine ⟨?_, hbr⟩
  have herr : resultErrors (bodyResult r) = none := by
    rw [hbr]
    cases r.textBody <;> rfl
  unfold handleApiResponse
  rw [hok]
  simp only [Bool.false_eq_true, if_false]
  split
  · rw [herr]
    simp only [Option.elim, Bool.and_false, Bool.false_eq_true, if_false]
    exact ⟨_, rfl⟩
  all_goals exact ⟨_, rfl⟩

/-- Witness for C4 at a 500 response whose `text()` call itself failed. -/
theorem parse_failure_swallowed_amended_witness :
    (∃ m, handleApiResponse ⟨500, none, none⟩ = .apiError m)
    ∧ bodyResult ⟨500, none, none⟩ = BodyResult.undef :=
  parse_failure_swallowed_amended ⟨500, none, none⟩ rfl rfl

/-- C5 counterexample: a 400 response whose JSON body has a truthy `errors`
value that is not a list (`\x7berrors: "bad"\x7d`).  No errors list is
present, yet the code does not produce the generic dump: `result.errors.join`
is not a function, so a TypeError escapes instead of the claimed message. -/
theorem status400_nonlist_errors_cex :
    handleApiResponse ⟨400, some "\x7b\"errors\":\"bad\"\x7d",
        some (.obj [("errors", Json.str "bad")])⟩
      = HandleOutcome.jsTypeError := rfl

/-- C5 amended: for a 400 response whose JSON body object carries an
`errors` list, the message is that list joined with `", "`; when the body
object has no `errors` entry, the message is the generic dump
`Invalid request: <stringified body>`.  (A truthy non-list `errors` value
falls under neither clause: it raises a TypeError, per the
counterexample.) -/
theorem status400_errors_message_amended (r : ApiResponse) (t : String)
    (fs : List (String × Json)) (hst : r.status = 400) (htb : r.textBody = some t)
    (hj : r.jsonOf = some (.obj fs)) :
    (∀ es, jsGet fs "errors" = some (.arr es) →
        handleApiResponse r = .apiError ("API Error: " ++ joinElems es ", "))
    ∧ (jsGet fs "errors" = none →
        handleApiResponse r
          = .apiError ("API Error: Invalid request: " ++ stringifyJson (.obj fs))) := by
  have hok : r.ok = false := by simp [ApiResponse.ok, hst]
  have hbr : bodyResult r = .json (.obj fs) := by
    unfold bodyResult
    rw [htb, hj]
  constructor
  · intro es hes
    unfold handleApiResponse
    rw [hok]
    simp only [Bool.false_eq_true, if_false, hst, hbr]
    simp [resultTruthy, truthy, resultErrors, hes]
  · intro hnone
    unfold handleApiResponse
    rw [hok]
    simp only [Bool.false_eq_true, if_false, hst, hbr]
    simp [resultTruthy, truthy, resultErrors, hnone, stringifyResult]

/-- Witness for C5: `\x7berrors:["bad salt","bad side"]\x7d` yields the
joined message, and an empty body object yields the generic dump. -/
theorem status400_errors_message_amended_witness :
    handleApiResponse ⟨400, some "\x7b\"errors\":[\"bad salt\",\"bad side\"]\x7d",
        some (.obj [("errors", .arr [.str "bad salt", .str "bad side"])])⟩
      = .apiError "API Error: bad salt, bad side"
    ∧ handleApiResponse ⟨400, some "\x7b\x7d", some (.obj [])⟩
      = .apiError "API Error: Invalid request: \x7b\x7d" :=
  ⟨(status400_errors_message_amended
      ⟨400, some "\x7b\"errors\":[\"bad salt\",\"bad side\"]\x7d",
        some (.obj [("errors", .arr [.str "bad salt", .str "bad side"])])⟩
      "\x7b\"errors\":[\"bad salt\",\"bad side\"]\x7d"
      [("errors", .arr [.str "bad salt", .str "bad side"])] rfl rfl rfl).1
      [.str "bad salt", .str "bad side"] rfl,
   (status400_errors_message_amended ⟨400, some "\x7b\x7d", some (.obj [])⟩
      "\x7b\x7d" [] rfl rfl rfl).2 rfl⟩

/-- C6: every 404 response — whatever its body — raises the error whose
message is `Not found` followed by the (stringified) response body. -/
theorem status404_not_found_message (r : ApiResponse) (hst : r.status = 404) :
    handleApiResponse r
      = .apiError ("API Error: Not found. Full message was '"
          ++ stringifyResult (bodyResult r) ++ "'") := by
  have hok : r.ok = false := by simp [ApiResponse.ok, hst]
  unfold handleApiResponse
  rw [hok]
  simp only [Bool.false_eq_true, if_false, hst]

/-- Witness for C6 at body `\x7b\x7d`. -/
theorem status404_not_found_message_witness :
    handleApiResponse ⟨404, some "\x7b\x7d", some (.obj [])⟩
      = .apiError "API Error: Not found. Full message was '\x7b\x7d'" :=
  status404_not_found_message ⟨404, some "\x7b\x7d", some (.obj [])⟩ rfl

/-- C7: a successful response with a `null` body makes `getAsset` and
`getBundle` return `null` rather than raise. -/
theorem zero_result_asset_bundle_null (r : ApiResponse) (hst : r.status = 200)
    (hj : r.jsonOf = some Json.null) :
    getAssetResult r = .value none ∧ getBundleResult r = .value none := by
  have hok : r.ok = true := by simp [ApiResponse.ok, hst]
  have hrj : responseJson r = .value Json.null := by
    unfold responseJson handleApiResponse
    rw [hok]
    simp [hj]
  constructor
  · unfold getAssetResult
    rw [hrj]
    rfl
  · unfold getBundleResult
    rw [hrj]
    rfl

/-- Witness for C7. -/
theorem zero_result_asset_bundle_null_witness :
    getAssetResult ⟨200, some "null", some Json.null⟩ = .value none
    ∧ getBundleResult ⟨200, some "null", some Json.null⟩ = .value none :=
  zero_result_asset_bundle_null ⟨200, some "null", some Json.null⟩ rfl rfl

/-- C8 counterexample: with caller options that already carry a `method`
(`DELETE` here), `put` is NOT `post` with the method overridden to `PUT` —
the caller's options are spread over the `method: PUT` default, so the
caller's method survives and the two calls differ. -/
theorem put_method_override_cex :
    ((OpenSeaAPI.create ⟨none, none, none, none⟩).put "/p" (Json.obj [])
        ⟨some "DELETE", none, none⟩).opts.method = some "DELETE"
    ∧ ((OpenSeaAPI.create ⟨none, none, none, none⟩).post "/p" (some (Json.obj []))
        ⟨some "PUT", none, none⟩).opts.method = some "PUT"
    ∧ (OpenSeaAPI.create ⟨none, none, none, none⟩).put "/p" (Json.obj [])
        ⟨some "DELETE", none, none⟩
      ≠ (OpenSeaAPI.create ⟨none, none, none, none⟩).post "/p" (some (Json.obj []))
        ⟨some "PUT", none, none⟩ := by
  refine ⟨rfl, rfl, ?_⟩
  decide

/-- C8 amended: whenever the caller's options do not themselves set a
`method`, `put(path, body, opts)` is observationally identical to
`post(path, body, opts with method set to PUT)` — same body serialization,
same headers, same downstream handling; `PUT` is only the default method,
which caller options may override. -/
theorem put_is_post_with_put_default_amended (api : OpenSeaAPI) (apiPath : String)
    (body : Json) (opts : RequestInit) (hm : opts.method = none) :
    api.put apiPath body opts
      = api.post apiPath (some body) ⟨some "PUT", opts.body, opts.headers⟩ := by
  obtain ⟨m, b, h⟩ := opts
  simp only at hm
  subst hm
  unfold OpenSeaAPI.put spreadInit overrideOpt
  cases b <;> cases h <;> rfl

/-- Witness for C8 with empty caller options. -/
theorem put_is_post_with_put_default_amended_witness :
    (OpenSeaAPI.create ⟨none, none, none, none⟩).put "/p" (Json.obj [])
        ⟨none, none, none⟩
      = (OpenSeaAPI.create ⟨none, none, none, none⟩).post "/p" (some (Json.obj []))
        ⟨some "PUT", none, none⟩ :=
  put_is_post_with_put_default_amended (OpenSeaAPI.create ⟨none, none, none, none⟩)
    "/p" (Json.obj []) ⟨none, none, none⟩ rfl

/-- The constructor stores exactly the configured API key. -/
theorem OpenSeaAPI.create_apiKey (config : OpenSeaAPIConfig) :
    (OpenSeaAPI.create config).apiKey = config.apiKey := by
  unfold OpenSeaAPI.create
  obtain ⟨nn, key, base, gas⟩ := config
  cases nn with
  | none => rfl
  | some n => cases n <;> rfl

/-- C9 counterexample: a client constructed WITHOUT an API key still issues
a request carrying `X-API-KEY` when the caller smuggles that header in
through the request options — so "never carries the header" fails. -/
theorem api_key_header_smuggled_cex :
    jsGet (((OpenSeaAPI.create ⟨none, none, none, none⟩).post "/p" none
        ⟨none, none, some [("X-API-KEY", "smuggled")]⟩).opts.headers.getD [])
      "X-API-KEY" = some "smuggled" := rfl

/-- C9 amended: for every request whose caller-supplied options do not
themselves contain an `X-API-KEY` header (which is the case for all `get`
requests and all default `post`/`put` calls), the issued request's
`X-API-KEY` header is attached if and only if a truthy — i.e. non-empty —
API key was configured at construction, and then with the configured value;
a configured empty-string key, being falsy, attaches nothing. -/
theorem api_key_header_iff_configured_amended (config : OpenSeaAPIConfig)
    (apiPath : String) (opts : RequestInit)
    (h : ∀ p ∈ opts.headers.getD [], p.1 ≠ "X-API-KEY") :
    jsGet (((OpenSeaAPI.create config).fetchRaw apiPath opts).opts.headers.getD [])
      "X-API-KEY"
      = match config.apiKey with
        | some k => if k == "" then none else some k
        | none => none := by
  unfold OpenSeaAPI.fetchRaw objMerge
  simp only [Option.getD_some]
  rw [jsGet_append_none _ (jsGet_eq_none_of_forall _ h)]
  rw [OpenSeaAPI.create_apiKey]
  cases hk : config.apiKey with
  | none => rfl
  | some k =>
    by_cases hke : k = ""
    · subst hke
      simp [jsGet]
    · have hany : ((opts.headers.getD []).any (fun q => q.1 == "X-API-KEY")) = false := by
        rw [List.any_eq_false]
        intro q hq
        simp only [beq_iff_eq]
        exact h q hq
      simp [hke, List.filter_cons, hany, jsGet]

/-- Witness for C9: with a configured key `mykey` and no caller headers the
request carries `X-API-KEY: mykey`; with no key, and likewise with a falsy
empty-string key, it carries no `X-API-KEY` header. -/
theorem api_key_header_iff_configured_amended_witness :
    jsGet (((OpenSeaAPI.create ⟨none, some "mykey", none, none⟩).fetchRaw
        (ORDERBOOK_PATH ++ "/orders") ⟨none, none, none⟩).opts.headers.getD [])
      "X-API-KEY" = some "mykey"
    ∧ jsGet (((OpenSeaAPI.create ⟨none, none, none, none⟩).fetchRaw
        (ORDERBOOK_PATH ++ "/orders") ⟨none, none, none⟩).opts.headers.getD [])
      "X-API-KEY" = none
    ∧ jsGet (((OpenSeaAPI.create ⟨none, some "", none, none⟩).fetchRaw
        (ORDERBOOK_PATH ++ "/orders") ⟨none, none, none⟩).opts.headers.getD [])
      "X-API-KEY" = none :=
  ⟨api_key_header_iff_configured_amended ⟨none, some "mykey", none, none⟩
      (ORDERBOOK_PATH ++ "/orders") ⟨none, none, none⟩ (by simp),
   api_key_header_iff_configured_amended ⟨none, none, none, none⟩
      (ORDERBOOK_PATH ++ "/orders") ⟨none, none, none⟩ (by simp),
   api_key_header_iff_configured_amended ⟨none, some "", none, none⟩
      (ORDERBOOK_PATH ++ "/orders") ⟨none, none, none⟩ (by simp)⟩

/-- C10: caller-supplied request options are merged after the client's
defaults in `_fetch`: an `X-API-KEY` entry in `opts.headers` takes
precedence over the injected key header, whatever key (if any) the client
was configured with. -/
theorem caller_header_overrides_api_key (api : OpenSeaAPI) (apiPath : String)
    (opts : RequestInit) (hs : List (String × String)) (v : String)
    (hh : opts.headers = some hs) (hv : jsGet hs "X-API-KEY" = some v) :
    jsGet ((api.fetchRaw apiPath opts).opts.headers.getD []) "X-API-KEY" = some v := by
  unfold OpenSeaAPI.fetchRaw objMerge
  simp only [Option.getD_some, hh]
  exact jsGet_append_some _ hv

/-- Witness for C10: a client configured with key `configured` issues the
caller's `override` value. -/
theorem caller_header_overrides_api_key_witness :
    jsGet (((OpenSeaAPI.create ⟨none, some "configured", none, none⟩).fetchRaw "/p"
        ⟨none, none, some [("X-API-KEY", "override")]⟩).opts.headers.getD [])
      "X-API-KEY" = some "override" :=
  caller_header_overrides_api_key (OpenSeaAPI.create ⟨none, some "configured", none, none⟩)
    "/p" ⟨none, none, some [("X-API-KEY", "override")]⟩ [("X-API-KEY", "override")]
    "override" rfl rfl
